import Mathlib

/-
Verification of the core of the indian-stock-api repository.

The embedding models the two index API copies
(app/api/index_api.py and api/index_api.py) and the live quote
fetcher (app/api/stock_api.py).  Prices are modelled as rationals;
the Python value None and an absent dictionary key are both modelled
by Option.none.  Each remote interaction is modelled by an explicit
outcome value describing what the network or the backend did, so that
the control flow of the Python try/except blocks can be replayed
exactly.
-/

namespace IndianStockApi

/-- Python round(x, 2): round to two decimal places.  Modelled with the
Mathlib round function on rationals (round to the nearest multiple of
1/100). -/
def round2 (q : ℚ) : ℚ := ((round (q * 100) : ℤ) : ℚ) / 100

/-- The fields of the yfinance ticker.info dictionary that
fetch_single_stock_metrics reads (app/api/index_api.py lines 114-121).
none models an absent field. -/
structure Info where
  previousClose : Option ℚ
  regularMarketPreviousClose : Option ℚ
  fiftyTwoWeekHigh : Option ℚ
  fiftyTwoWeekLow : Option ℚ
  longName : Option String
deriving DecidableEq

/-- Which step of the try block of fetch_single_stock_metrics raises
(fault injection point). -/
inductive Fault where
  | infoLookup
  | historyLookup
  | nearnessComputation
deriving DecidableEq

/-- The behaviour of the yfinance backend for one symbol: either the
whole try block runs without raising, yielding the info record and the
last history close (none when the one day history is empty), or an
exception is raised at some step. -/
inductive Backend where
  | ok (info : Info) (historyClose : Option ℚ)
  | exn (f : Fault)
deriving DecidableEq

/-- The snapshot dictionary returned by fetch_single_stock_metrics
(app/api/index_api.py lines 137-146 and 150-159). -/
structure Snapshot where
  symbol : String
  name : String
  lastPrice : Option ℚ
  high52Week : Option ℚ
  low52Week : Option ℚ
  lowNearnessPercentage : Option ℚ
  upcomingEvents : List String
  detailLink : String
deriving DecidableEq

/-- app/api/index_api.py line 108: the NSE detail URL template. -/
def NSE_DETAIL_URL (symbol : String) : String :=
  "https://www.nseindia.com/get-quotes/equity?symbol=" ++ symbol

/-- The nearness computation inlined at app/api/index_api.py lines
122-129, factored out as a function of the three values.  The Python
guard tests truthiness, so a value of 0 fails the guard exactly like
None does. -/
def nearness (price low_52w high_52w : Option ℚ) : Option ℚ :=
  match price, low_52w, high_52w with
  | some p, some l, some h =>
    if p ≠ 0 ∧ l ≠ 0 ∧ h ≠ 0 ∧ l ≤ p then
      if 0 < h - l then some (round2 ((p - l) / (h - l) * 100)) else some 0
    else none
  | _, _, _ => none

/-- The nearness rule exactly as claim C1 states it: null only when an
input is null or price < low, 0.0 when high - low = 0, otherwise the
rounded ratio.  Stated from the specification wording, for comparison
with the implementation. -/
def nearness_as_specified (price low high : Option ℚ) : Option ℚ :=
  match price, low, high with
  | some p, some l, some h =>
    if p < l then none
    else if h - l = 0 then some 0
    else some (round2 ((p - l) / (h - l) * 100))
  | _, _, _ => none

/-- The amended nearness rule: inputs that are null or zero give null
(the implementation guard tests truthiness, so 0 fails it), price < low
gives null, a range that is zero or negative gives 0.0, and otherwise
the rounded ratio applies. -/
def nearness_amended_spec (price low high : Option ℚ) : Option ℚ :=
  match price, low, high with
  | some p, some l, some h =>
    if p = 0 ∨ l = 0 ∨ h = 0 ∨ p < l then none
    else if h - l ≤ 0 then some 0
    else some (round2 ((p - l) / (h - l) * 100))
  | _, _, _ => none

/-- app/api/index_api.py lines 114-117: previousClose, defaulting to
regularMarketPreviousClose, defaulting to the last history close. -/
def resolve_last_price (info : Info) (historyClose : Option ℚ) : Option ℚ :=
  match (match info.previousClose with
         | some v => some v
         | none => info.regularMarketPreviousClose) with
  | some v => some v
  | none => historyClose

/-- app/api/index_api.py lines 102-159 (the api/index_api.py copy at
lines 101-170 is identical except for the history timeout, which is
not observable here).  The backend argument stands for the yfinance
calls inside the try block. -/
def fetch_single_stock_metrics (symbol : String) (b : Backend) : Snapshot :=
  match b with
  | Backend.exn _ =>
    { symbol := symbol
      name := "Error/No Data for " ++ symbol
      lastPrice := none
      high52Week := none
      low52Week := none
      lowNearnessPercentage := none
      upcomingEvents := []
      detailLink := NSE_DETAIL_URL symbol }
  | Backend.ok info historyClose =>
    let price := resolve_last_price info historyClose
    let high_52w := info.fiftyTwoWeekHigh
    let low_52w := info.fiftyTwoWeekLow
    let low_nearness_percent := nearness price low_52w high_52w
    { symbol := symbol
      name := info.longName.getD symbol
      lastPrice :=
        match price with
        | some p => if p ≠ 0 then some (round2 p) else none
        | none => none
      high52Week := high_52w
      low52Week := low_52w
      lowNearnessPercentage := low_nearness_percent
      upcomingEvents := []
      detailLink := NSE_DETAIL_URL symbol }

/-- app/api/index_api.py lines 54-60 (identical at api/index_api.py
lines 26-32): the hardcoded SENSEX 30 list, copied verbatim. -/
def SENSEX_30_LIST : List String :=
  ["RELIANCE", "HDFCBANK", "ICICIBANK", "INFY", "HINDUNILVR", "TCS", "KOTAKBANK",
   "AXISBANK", "SBIN", "LT", "ASIANPAINT", "MARUTI", "BAJFINANCE", "HCLTECH",
   "TITAN", "SUNPHARMA", "NESTLEIND", "ITC", "TATASTEEL", "POWERGRID",
   "INDUSINDBK", "ULTRACEMCO", "TECHM", "M&M", "TATASTEEL", "BAJAJFINSV",
   "HINDALCO", "WIPRO", "BHARTIARTL", "DRREDDY"]

/-- app/api/index_api.py lines 50-61: get_sensex_30_symbols returns the
hardcoded list. -/
def get_sensex_30_symbols : List String := SENSEX_30_LIST

/-- app/api/index_api.py line 75: the hardcoded NIFTY 50 fallback list. -/
def NIFTY_FALLBACK : List String :=
  ["RELIANCE", "HDFCBANK", "TCS", "ICICIBANK", "INFY", "KOTAKBANK", "HINDUNILVR"]

/-- What the remote NSE constituent source did during one call of
get_nifty_50_symbols.  The first five constructors are the ways the
try block of app/api/index_api.py lines 77-94 can raise: timeout and
connectionError and httpStatusError are RequestException cases from
the two session.get calls and raise_for_status; malformedCSV is a
pandas parse failure and otherScrapeError any other exception, both
landing in the generic except clause.  parsed carries the parsed CSV
as an association of column names to column values; a table without a
Symbol column raises KeyError at line 87. -/
inductive FetchOutcome where
  | timeout
  | connectionError
  | httpStatusError
  | malformedCSV
  | otherScrapeError
  | parsed (table : List (String × List String))
deriving DecidableEq

/-- app/api/index_api.py lines 63-96 (identical logic at
api/index_api.py lines 52-92): resolve the NIFTY 50 constituents,
falling back to NIFTY_FALLBACK on every exception. -/
def get_nifty_50_symbols : FetchOutcome → List String
  | FetchOutcome.timeout => NIFTY_FALLBACK
  | FetchOutcome.connectionError => NIFTY_FALLBACK
  | FetchOutcome.httpStatusError => NIFTY_FALLBACK
  | FetchOutcome.malformedCSV => NIFTY_FALLBACK
  | FetchOutcome.otherScrapeError => NIFTY_FALLBACK
  | FetchOutcome.parsed table =>
    match table.find? (fun c => c.1 == "Symbol") with
    | some c => c.2
    | none => NIFTY_FALLBACK

/-- True exactly on the outcomes in which the try block of
get_nifty_50_symbols raises: any of the five error outcomes, or a
parsed table without a Symbol column (KeyError). -/
def isFailure : FetchOutcome → Bool
  | FetchOutcome.parsed table => (table.find? (fun c => c.1 == "Symbol")).isNone
  | _ => true

/-- The JSON object built by the app/api/index_api.py endpoints
(lines 189-195 and 208-214). -/
structure AggregateReport where
  status : String
  index : String
  total_constituents : Nat
  total_stocks_fetched : Nat
  data : List Snapshot
deriving DecidableEq

/-- app/api/index_api.py lines 175-195: the NIFTY 50 endpoint.  The
loop appending every snapshot whose lastPrice is not None is written
as a filter of the mapped list, which appends exactly the same
elements in the same order. -/
def get_nifty50_data (remote : FetchOutcome) (backend : String → Backend) :
    AggregateReport :=
  let symbols_to_fetch := get_nifty_50_symbols remote
  let results :=
    (symbols_to_fetch.map (fun s => fetch_single_stock_metrics s (backend s))).filter
      (fun d => d.lastPrice.isSome)
  { status := "success"
    index := "NIFTY50"
    total_constituents := symbols_to_fetch.length
    total_stocks_fetched := results.length
    data := results }

/-- app/api/index_api.py lines 197-214: the SENSEX endpoint. -/
def get_sensex_data (backend : String → Backend) : AggregateReport :=
  let symbols_to_fetch := get_sensex_30_symbols
  let results :=
    (symbols_to_fetch.map (fun s => fetch_single_stock_metrics s (backend s))).filter
      (fun d => d.lastPrice.isSome)
  { status := "success"
    index := "SENSEX"
    total_constituents := symbols_to_fetch.length
    total_stocks_fetched := results.length
    data := results }

end IndianStockApi

namespace SrcIndexApi

open IndianStockApi

/-- The JSON object built by the api/index_api.py NIFTY 50 endpoint:
the warning branch (lines 191-195) has only status, message and data,
while the success branch (lines 205-211) has status, index, the two
counts and data.  Fields absent from a branch are modelled by none. -/
structure Report where
  status : String
  message : Option String
  index : Option String
  total_constituents : Option Nat
  total_stocks_fetched : Option Nat
  data : List Snapshot
deriving DecidableEq

/-- api/index_api.py lines 182-211: this older copy of the NIFTY 50
endpoint returns a warning report when the resolved list is empty or
equals the fallback list, and the success report with counts
otherwise.  The list comprehension of line 194 calls
fetch_single_stock_metrics twice per symbol; with the deterministic
backend of this model both calls agree, so it is the same filter. -/
def get_nifty50_data (remote : FetchOutcome) (backend : String → Backend) :
    Report :=
  let symbols_to_fetch := get_nifty_50_symbols remote
  if symbols_to_fetch = [] ∨ symbols_to_fetch = NIFTY_FALLBACK then
    { status := "warning"
      message := some "NSE data download failed. Using a small, cached list for demonstration/fallback."
      index := none
      total_constituents := none
      total_stocks_fetched := none
      data :=
        (symbols_to_fetch.map (fun s => fetch_single_stock_metrics s (backend s))).filter
          (fun d => d.lastPrice.isSome) }
  else
    let results :=
      (symbols_to_fetch.map (fun s => fetch_single_stock_metrics s (backend s))).filter
        (fun d => d.lastPrice.isSome)
    { status := "success"
      message := none
      index := some "NIFTY50"
      total_constituents := some symbols_to_fetch.length
      total_stocks_fetched := some results.length
      data := results }

end SrcIndexApi

namespace StockApi

/-- The nested sections of the NSE quote JSON document that
app/api/stock_api.py lines 87-97 reads.  none models an absent key;
reading an absent key with square brackets raises KeyError, which the
outer except of line 100 converts to None. -/
structure InfoSection where
  symbol : Option String
  companyName : Option String
deriving DecidableEq

structure PriceInfoSection where
  lastPrice : Option ℚ
  change : Option ℚ
  pChange : Option ℚ
deriving DecidableEq

structure PcrSection where
  high52Week : Option ℚ
  low52Week : Option ℚ
deriving DecidableEq

structure SecurityInfoSection where
  issuedCap : Option ℚ
deriving DecidableEq

structure MetadataSection where
  industry : Option String
deriving DecidableEq

/-- The parsed quote JSON document. -/
structure QuoteDoc where
  info : Option InfoSection
  priceInfo : Option PriceInfoSection
  securityWisePCR : Option PcrSection
  securityInfo : Option SecurityInfoSection
  metadata : Option MetadataSection
deriving DecidableEq

/-- The quote dictionary built at app/api/stock_api.py lines 87-97. -/
structure Quote where
  symbol : String
  companyName : String
  lastPrice : ℚ
  change : ℚ
  pChange : ℚ
  high52Week : ℚ
  low52Week : ℚ
  marketCapital : ℚ
  industry : String
deriving DecidableEq

/-- What the NSE live quote backend did for one call of
fetch_live_quote_data: a network or HTTP status error from the
session.get calls or raise_for_status (lines 67-70), a body that is
not JSON (the market closed case, line 76), or a parsed JSON value.
json none models a falsy parsed document (the check "not data" at
line 83). -/
inductive QuoteResponse where
  | netError
  | nonJson
  | json (data : Option QuoteDoc)
deriving DecidableEq

/-- The dictionary construction of app/api/stock_api.py lines 87-97:
every square bracket access of a missing key raises KeyError, modelled
by the Option bind; marketCapital is issuedCap * lastPrice (line 95). -/
def buildQuote (d : QuoteDoc) : Option Quote :=
  d.info.bind fun i =>
  i.symbol.bind fun sym =>
  i.companyName.bind fun cname =>
  d.priceInfo.bind fun prices =>
  prices.lastPrice.bind fun lp =>
  prices.change.bind fun chg =>
  prices.pChange.bind fun pchg =>
  d.securityWisePCR.bind fun pcr =>
  pcr.high52Week.bind fun h52 =>
  pcr.low52Week.bind fun l52 =>
  d.securityInfo.bind fun sec =>
  sec.issuedCap.bind fun cap =>
  d.metadata.bind fun md =>
  md.industry.bind fun ind =>
  some { symbol := sym, companyName := cname, lastPrice := lp, change := chg,
         pChange := pchg, high52Week := h52, low52Week := l52,
         marketCapital := cap * lp, industry := ind }

/-- app/api/stock_api.py lines 59-102: the live quote fetch.  Every
failure path returns none; the outer except clause (line 100) catches
everything else, including the KeyError cases inside buildQuote. -/
def fetch_live_quote_data (resp : QuoteResponse) : Option Quote :=
  match resp with
  | QuoteResponse.netError => none
  | QuoteResponse.nonJson => none
  | QuoteResponse.json none => none
  | QuoteResponse.json (some d) =>
    match d.info with
    | none => none
    | some i =>
      match i.symbol with
      | none => none
      | some _ => buildQuote d

/-- A quote document with every field present, used as a concrete
witness input. -/
def fullQuoteDoc : QuoteDoc :=
  { info := some { symbol := some "SBIN", companyName := some "State Bank of India" }
    priceInfo := some { lastPrice := some 800, change := some 5, pChange := some 1 }
    securityWisePCR := some { high52Week := some 912, low52Week := some 680 }
    securityInfo := some { issuedCap := some 100 }
    metadata := some { industry := some "Banks" } }

/-- The quote mapped from fullQuoteDoc along the fixed field paths. -/
def fullQuote : Quote :=
  { symbol := "SBIN", companyName := "State Bank of India", lastPrice := 800,
    change := 5, pChange := 1, high52Week := 912, low52Week := 680,
    marketCapital := 100 * 800, industry := "Banks" }

/-- A quote document whose info section is absent, used as a concrete
witness input. -/
def emptyInfoDoc : QuoteDoc :=
  { info := none, priceInfo := none, securityWisePCR := none,
    securityInfo := none, metadata := none }

end StockApi

namespace IndianStockApi

theorem round2_nonneg (x : ℚ) (hx : 0 ≤ x) : 0 ≤ round2 x := by
  unfold round2
  have h1 : (0 : ℤ) ≤ round (x * 100) := by
    rw [round_eq]
    exact Int.le_floor.mpr (by push_cast; linarith)
  exact div_nonneg (by exact_mod_cast h1) (by norm_num)

theorem round2_le_100 (x : ℚ) (hx : x ≤ 100) : round2 x ≤ 100 := by
  unfold round2
  have h1 : round (x * 100) ≤ 10000 := by
    rw [round_eq]
    have h2 : (⌊x * 100 + 1 / 2⌋ : ℤ) < 10001 := Int.floor_lt.mpr (by push_cast; linarith)
    omega
  rw [div_le_iff₀ (by norm_num : (0 : ℚ) < 100)]
  calc ((round (x * 100) : ℤ) : ℚ) ≤ (10000 : ℚ) := by exact_mod_cast h1
    _ = 100 * 100 := by norm_num

theorem nearness_nonneg (po lo ho : Option ℚ) (q : ℚ)
    (h : nearness po lo ho = some q) : 0 ≤ q := by
  unfold nearness at h
  split at h
  next p l h52 =>
    split_ifs at h with hg hr
    · injection h with h
      subst h
      have hp : l ≤ p := hg.2.2.2
      apply round2_nonneg
      apply mul_nonneg _ (by norm_num)
      exact div_nonneg (by linarith) (by linarith)
    · injection h with h
      subst h
      exact le_refl 0
  next => exact absurd h (by simp)

theorem nearness_falsy (po lo ho : Option ℚ)
    (h : po = none ∨ po = some 0 ∨ lo = none ∨ lo = some 0 ∨ ho = none ∨ ho = some 0) :
    nearness po lo ho = none := by
  rcases po with _ | p <;> rcases lo with _ | l <;> rcases ho with _ | h52 <;>
    simp only [nearness]
  simp only [Option.some.injEq, reduceCtorEq, false_or, or_false] at h
  rcases h with h | h | h <;> subst h <;> simp

theorem get_nifty_50_symbols_of_failure (o : FetchOutcome) (h : isFailure o = true) :
    get_nifty_50_symbols o = NIFTY_FALLBACK := by
  cases o with
  | parsed table =>
    simp only [isFailure, Option.isNone_iff_eq_none] at h
    simp only [get_nifty_50_symbols, h]
  | timeout => rfl
  | connectionError => rfl
  | httpStatusError => rfl
  | malformedCSV => rfl
  | otherScrapeError => rfl

/-- Claim C1, counterexample: at price 50, low 0, high 100 all three
values are present and price is not below the low, so the claimed rule
returns 50.0, but the implementation returns null because its
truthiness guard rejects the zero low. -/
theorem nearness_claim_counterexample :
    nearness (some 50) (some 0) (some 100) = none ∧
    nearness_as_specified (some 50) (some 0) (some 100) = some 50 ∧
    (none : Option ℚ) ≠ some 50 :=
  ⟨by norm_num [nearness],
   by norm_num [nearness_as_specified, round2, round_eq],
   by simp⟩

/-- Claim C1 (amended): the nearness computation agrees everywhere with
the amended rule (null on null or zero inputs or price < low, 0.0 on a
zero or negative range, the rounded ratio otherwise), and takes the
five example values listed by the claim. -/
theorem nearness_amended_correct :
    (∀ price low high, nearness price low high = nearness_amended_spec price low high) ∧
    nearness (some 150) (some 100) (some 200) = some 50 ∧
    nearness (some 100) (some 100) (some 200) = some 0 ∧
    nearness (some 200) (some 100) (some 200) = some 100 ∧
    nearness (some 100) (some 100) (some 100) = some 0 ∧
    nearness (some 90) (some 100) (some 200) = none := by
  refine ⟨?_, ?_, ?_, ?_, ?_, ?_⟩
  · intro po lo ho
    rcases po with _ | p <;> rcases lo with _ | l <;> rcases ho with _ | h <;>
      simp only [nearness, nearness_amended_spec]
    have hiff : (p ≠ 0 ∧ l ≠ 0 ∧ h ≠ 0 ∧ l ≤ p) ↔ ¬(p = 0 ∨ l = 0 ∨ h = 0 ∨ p < l) := by
      constructor
      · rintro ⟨h1, h2, h3, h4⟩ (hc | hc | hc | hc)
        · exact h1 hc
        · exact h2 hc
        · exact h3 hc
        · exact absurd h4 (not_le.mpr hc)
      · intro hn
        push_neg at hn
        exact ⟨hn.1, hn.2.1, hn.2.2.1, hn.2.2.2⟩
    by_cases hB : p = 0 ∨ l = 0 ∨ h = 0 ∨ p < l
    · rw [if_neg (fun hA => (hiff.mp hA) hB), if_pos hB]
    · rw [if_pos (hiff.mpr hB), if_neg hB]
      by_cases hr : 0 < h - l
      · rw [if_pos hr, if_neg (not_le.mpr hr)]
      · rw [if_neg hr, if_pos (not_lt.mp hr)]
  · norm_num [nearness, round2, round_eq]
  · norm_num [nearness, round2, round_eq]
  · norm_num [nearness, round2, round_eq]
  · norm_num [nearness, round2, round_eq]
  · norm_num [nearness]

/-- Claim C2: for every failure mode of the remote source (timeout,
connection error, HTTP status error, malformed CSV, any other scrape
exception, or a parsed table without a Symbol column) the resolver
returns the hardcoded fallback list, which is not empty. -/
theorem resolver_failure_returns_fallback :
    ∀ o : FetchOutcome, isFailure o = true →
      get_nifty_50_symbols o = NIFTY_FALLBACK ∧ get_nifty_50_symbols o ≠ [] := by
  intro o h
  have hf := get_nifty_50_symbols_of_failure o h
  refine ⟨hf, ?_⟩
  rw [hf]
  decide

/-- Claim C2, witness: the timeout failure mode concretely yields the
nonempty fallback list. -/
theorem resolver_failure_returns_fallback_witness :
    get_nifty_50_symbols FetchOutcome.timeout = NIFTY_FALLBACK ∧
    get_nifty_50_symbols FetchOutcome.timeout ≠ [] :=
  resolver_failure_returns_fallback FetchOutcome.timeout rfl

/-- Claim C3: for every symbol and every injected backend fault the
per symbol fetch returns the structured error snapshot: the error
display name, null price and range fields, empty upcoming events and
the populated detail link for the symbol. -/
theorem fetch_one_error_snapshot :
    ∀ (sym : String) (f : Fault),
      (fetch_single_stock_metrics sym (Backend.exn f)).symbol = sym ∧
      (fetch_single_stock_metrics sym (Backend.exn f)).name = "Error/No Data for " ++ sym ∧
      (fetch_single_stock_metrics sym (Backend.exn f)).lastPrice = none ∧
      (fetch_single_stock_metrics sym (Backend.exn f)).high52Week = none ∧
      (fetch_single_stock_metrics sym (Backend.exn f)).low52Week = none ∧
      (fetch_single_stock_metrics sym (Backend.exn f)).lowNearnessPercentage = none ∧
      (fetch_single_stock_metrics sym (Backend.exn f)).upcomingEvents = [] ∧
      (fetch_single_stock_metrics sym (Backend.exn f)).detailLink =
        "https://www.nseindia.com/get-quotes/equity?symbol=" ++ sym :=
  fun _ _ => ⟨rfl, rfl, rfl, rfl, rfl, rfl, rfl, rfl⟩

end IndianStockApi

namespace IndianStockApi

theorem fetch_ok_lowNearness (sym : String) (info : Info) (hist : Option ℚ) :
    (fetch_single_stock_metrics sym (Backend.ok info hist)).lowNearnessPercentage =
      nearness (resolve_last_price info hist) info.fiftyTwoWeekLow info.fiftyTwoWeekHigh := rfl

theorem fetch_ok_lastPrice_none_iff (sym : String) (info : Info) (hist : Option ℚ) :
    (fetch_single_stock_metrics sym (Backend.ok info hist)).lastPrice = none ↔
      resolve_last_price info hist = none ∨ resolve_last_price info hist = some 0 := by
  rcases hp : resolve_last_price info hist with _ | p
  · simp [fetch_single_stock_metrics, hp]
  · by_cases hp0 : p = 0 <;> simp [fetch_single_stock_metrics, hp, hp0]

theorem results_all_isSome (syms : List String) (backend : String → Backend) :
    ((syms.map (fun s => fetch_single_stock_metrics s (backend s))).filter
        (fun d => d.lastPrice.isSome)).all (fun d => d.lastPrice.isSome) = true := by
  rw [List.all_eq_true]
  intro d hd
  exact (List.mem_filter.mp hd).2

theorem results_length_le (syms : List String) (backend : String → Backend) :
    ((syms.map (fun s => fetch_single_stock_metrics s (backend s))).filter
        (fun d => d.lastPrice.isSome)).length ≤ syms.length := by
  calc ((syms.map (fun s => fetch_single_stock_metrics s (backend s))).filter
        (fun d => d.lastPrice.isSome)).length
      ≤ (syms.map (fun s => fetch_single_stock_metrics s (backend s))).length :=
        List.length_filter_le _ _
    _ = syms.length := by simp

/-- Claim C5, counterexample: a backend reporting price 300 above the
52 week high 200 yields a non null nearness of 200.0, outside the
interval [0, 100]. -/
theorem lowNearness_above_100_counterexample :
    (fetch_single_stock_metrics "X"
        (Backend.ok { previousClose := some 300, regularMarketPreviousClose := none,
                      fiftyTwoWeekHigh := some 200, fiftyTwoWeekLow := some 100,
                      longName := none } none)).lowNearnessPercentage = some 200 ∧
    ¬((200 : ℚ) ≤ 100) := by
  constructor
  · rw [fetch_ok_lowNearness]
    norm_num [resolve_last_price, nearness, round2, round_eq]
  · norm_num

/-- Claim C5 (amended): a non null lowNearnessPercentage of a snapshot
is always nonnegative, and the nearness value is at most 100 whenever
the price does not exceed the 52 week high; the implementation does
not guard price > high, which is what allows values above 100. -/
theorem lowNearness_bounds :
    (∀ (sym : String) (b : Backend) (q : ℚ),
        (fetch_single_stock_metrics sym b).lowNearnessPercentage = some q → 0 ≤ q) ∧
    (∀ p l h q : ℚ,
        nearness (some p) (some l) (some h) = some q → p ≤ h → 0 ≤ q ∧ q ≤ 100) := by
  constructor
  · intro sym b q h
    cases b with
    | exn f => exact absurd h (by simp [fetch_single_stock_metrics])
    | ok info hist =>
      rw [fetch_ok_lowNearness] at h
      exact nearness_nonneg _ _ _ q h
  · intro p l h q hq hph
    refine ⟨nearness_nonneg _ _ _ q hq, ?_⟩
    simp only [nearness] at hq
    split_ifs at hq with hg hr
    · injection hq with hq
      subst hq
      have h1 : l ≤ p := hg.2.2.2
      have hr1 : (p - l) / (h - l) ≤ 1 := (div_le_one hr).mpr (by linarith)
      exact round2_le_100 _ (by linarith)
    · injection hq with hq
      subst hq
      norm_num

/-- Claim C5 (amended), witness: a concrete in range backend gives the
nearness 50, which satisfies both bounds. -/
theorem lowNearness_bounds_witness :
    ((0 : ℚ) ≤ 50) ∧ ((0 : ℚ) ≤ 50 ∧ (50 : ℚ) ≤ 100) :=
  ⟨lowNearness_bounds.1 "RELIANCE"
      (Backend.ok { previousClose := some 150, regularMarketPreviousClose := none,
                    fiftyTwoWeekHigh := some 200, fiftyTwoWeekLow := some 100,
                    longName := none } none) 50
      (by rw [fetch_ok_lowNearness]; norm_num [resolve_last_price, nearness, round2, round_eq]),
   lowNearness_bounds.2 150 100 200 50
      (by norm_num [nearness, round2, round_eq]) (by norm_num)⟩

/-- Claim C6, counterexample: a backend with no close price but a
present 52 week high yields a snapshot whose lastPrice is null while
high52Week is not null, because the success branch copies the range
fields unconditionally. -/
theorem lastPrice_null_fields_counterexample :
    (fetch_single_stock_metrics "SBIN"
        (Backend.ok { previousClose := none, regularMarketPreviousClose := none,
                      fiftyTwoWeekHigh := some 150, fiftyTwoWeekLow := some 100,
                      longName := none } none)).lastPrice = none ∧
    (fetch_single_stock_metrics "SBIN"
        (Backend.ok { previousClose := none, regularMarketPreviousClose := none,
                      fiftyTwoWeekHigh := some 150, fiftyTwoWeekLow := some 100,
                      longName := none } none)).high52Week ≠ none := by
  constructor
  · rw [fetch_ok_lastPrice_none_iff]
    left
    rfl
  · simp [fetch_single_stock_metrics]

/-- Claim C6 (amended): whenever lastPrice of a snapshot is null its
lowNearnessPercentage is null as well; the high52Week and low52Week
fields are copied from the backend info record in the success branch
and are only guaranteed null in the exception branch. -/
theorem lastPrice_null_implies_nearness_null :
    ∀ (sym : String) (b : Backend),
      (fetch_single_stock_metrics sym b).lastPrice = none →
      (fetch_single_stock_metrics sym b).lowNearnessPercentage = none := by
  intro sym b h
  cases b with
  | exn f => rfl
  | ok info hist =>
    rw [fetch_ok_lastPrice_none_iff] at h
    rw [fetch_ok_lowNearness]
    rcases h with h | h
    · exact nearness_falsy _ _ _ (Or.inl h)
    · exact nearness_falsy _ _ _ (Or.inr (Or.inl h))

/-- Claim C6 (amended), witness: the exception branch concretely has a
null lastPrice and a null lowNearnessPercentage. -/
theorem lastPrice_null_implies_nearness_null_witness :
    (fetch_single_stock_metrics "TCS"
        (Backend.exn Fault.historyLookup)).lowNearnessPercentage = none :=
  lastPrice_null_implies_nearness_null "TCS" (Backend.exn Fault.historyLookup) rfl

/-- Claim C10: the guards of fetch_single_stock_metrics test numeric
truthiness, so a previous close equal to 0 makes lastPrice null (and
the nearness null), and a zero 52 week low or high makes the nearness
null even though the value is present. -/
theorem zero_treated_as_missing :
    (∀ (sym : String) (info : Info) (hist : Option ℚ),
        info.previousClose = some 0 →
          (fetch_single_stock_metrics sym (Backend.ok info hist)).lastPrice = none ∧
          (fetch_single_stock_metrics sym (Backend.ok info hist)).lowNearnessPercentage = none) ∧
    (∀ (sym : String) (info : Info) (hist : Option ℚ),
        info.fiftyTwoWeekLow = some 0 ∨ info.fiftyTwoWeekHigh = some 0 →
          (fetch_single_stock_metrics sym (Backend.ok info hist)).lowNearnessPercentage = none) := by
  constructor
  · intro sym info hist h0
    have hr : resolve_last_price info hist = some 0 := by
      simp [resolve_last_price, h0]
    constructor
    · rw [fetch_ok_lastPrice_none_iff]
      exact Or.inr hr
    · rw [fetch_ok_lowNearness]
      exact nearness_falsy _ _ _ (Or.inr (Or.inl hr))
  · intro sym info hist h0
    rw [fetch_ok_lowNearness]
    rcases h0 with h0 | h0
    · exact nearness_falsy _ _ _ (Or.inr (Or.inr (Or.inr (Or.inl h0))))
    · exact nearness_falsy _ _ _ (Or.inr (Or.inr (Or.inr (Or.inr (Or.inr h0)))))

/-- Claim C10, witness: concrete backends with a zero previous close
and with a zero 52 week low. -/
theorem zero_treated_as_missing_witness :
    ((fetch_single_stock_metrics "ITC"
        (Backend.ok { previousClose := some 0, regularMarketPreviousClose := none,
                      fiftyTwoWeekHigh := some 120, fiftyTwoWeekLow := some 80,
                      longName := none } none)).lastPrice = none ∧
      (fetch_single_stock_metrics "ITC"
        (Backend.ok { previousClose := some 0, regularMarketPreviousClose := none,
                      fiftyTwoWeekHigh := some 120, fiftyTwoWeekLow := some 80,
                      longName := none } none)).lowNearnessPercentage = none) ∧
    (fetch_single_stock_metrics "LT"
        (Backend.ok { previousClose := some 90, regularMarketPreviousClose := none,
                      fiftyTwoWeekHigh := some 120, fiftyTwoWeekLow := some 0,
                      longName := none } none)).lowNearnessPercentage = none :=
  ⟨zero_treated_as_missing.1 "ITC" _ none rfl,
   zero_treated_as_missing.2 "LT" _ none (Or.inl rfl)⟩

end IndianStockApi

namespace SrcIndexApi

open IndianStockApi

theorem src_nifty_warning (remote : FetchOutcome) (backend : String → Backend)
    (hc : get_nifty_50_symbols remote = [] ∨ get_nifty_50_symbols remote = NIFTY_FALLBACK) :
    SrcIndexApi.get_nifty50_data remote backend =
      { status := "warning"
        message := some "NSE data download failed. Using a small, cached list for demonstration/fallback."
        index := none
        total_constituents := none
        total_stocks_fetched := none
        data := ((get_nifty_50_symbols remote).map
            (fun s => fetch_single_stock_metrics s (backend s))).filter
          (fun d => d.lastPrice.isSome) } := by
  simp only [SrcIndexApi.get_nifty50_data]
  rw [if_pos hc]

theorem src_nifty_success (remote : FetchOutcome) (backend : String → Backend)
    (hc : ¬(get_nifty_50_symbols remote = [] ∨ get_nifty_50_symbols remote = NIFTY_FALLBACK)) :
    SrcIndexApi.get_nifty50_data remote backend =
      { status := "success"
        message := none
        index := some "NIFTY50"
        total_constituents := some (get_nifty_50_symbols remote).length
        total_stocks_fetched := some (((get_nifty_50_symbols remote).map
            (fun s => fetch_single_stock_metrics s (backend s))).filter
          (fun d => d.lastPrice.isSome)).length
        data := ((get_nifty_50_symbols remote).map
            (fun s => fetch_single_stock_metrics s (backend s))).filter
          (fun d => d.lastPrice.isSome) } := by
  simp only [SrcIndexApi.get_nifty50_data]
  rw [if_neg hc]

end SrcIndexApi

namespace IndianStockApi

/-- Claim C4: every aggregate report of the NIFTY 50 and SENSEX
endpoints satisfies 0 <= total_stocks_fetched <= total_constituents,
total_constituents is the length of the resolved symbol list, every
data item has a non null lastPrice, and the data list is a sublist of
the per symbol snapshots in input order (no sorting).  For the older
api/index_api.py endpoint the count fields, whenever present, satisfy
the same bounds. -/
theorem aggregate_report_invariants :
    ∀ (remote : FetchOutcome) (backend : String → Backend),
      (get_nifty50_data remote backend).total_constituents =
          (get_nifty_50_symbols remote).length ∧
      0 ≤ (get_nifty50_data remote backend).total_stocks_fetched ∧
      (get_nifty50_data remote backend).total_stocks_fetched ≤
          (get_nifty50_data remote backend).total_constituents ∧
      (get_nifty50_data remote backend).data.all (fun d => d.lastPrice.isSome) = true ∧
      List.Sublist (get_nifty50_data remote backend).data
        ((get_nifty_50_symbols remote).map (fun s => fetch_single_stock_metrics s (backend s))) ∧
      (get_sensex_data backend).total_constituents = get_sensex_30_symbols.length ∧
      (get_sensex_data backend).total_stocks_fetched ≤
          (get_sensex_data backend).total_constituents ∧
      (get_sensex_data backend).data.all (fun d => d.lastPrice.isSome) = true ∧
      List.Sublist (get_sensex_data backend).data
        (get_sensex_30_symbols.map (fun s => fetch_single_stock_metrics s (backend s))) ∧
      (SrcIndexApi.get_nifty50_data remote backend).data.all
          (fun d => d.lastPrice.isSome) = true ∧
      List.Sublist (SrcIndexApi.get_nifty50_data remote backend).data
        ((get_nifty_50_symbols remote).map (fun s => fetch_single_stock_metrics s (backend s))) ∧
      (∀ n, (SrcIndexApi.get_nifty50_data remote backend).total_constituents = some n →
          n = (get_nifty_50_symbols remote).length) ∧
      (∀ m n, (SrcIndexApi.get_nifty50_data remote backend).total_stocks_fetched = some m →
          (SrcIndexApi.get_nifty50_data remote backend).total_constituents = some n →
          m ≤ n) := by
  intro remote backend
  refine ⟨rfl, Nat.zero_le _, results_length_le _ _, results_all_isSome _ _,
      List.filter_sublist _, rfl, results_length_le _ _, results_all_isSome _ _,
      List.filter_sublist _, ?_, ?_, ?_, ?_⟩ <;>
    by_cases hc : get_nifty_50_symbols remote = [] ∨
        get_nifty_50_symbols remote = NIFTY_FALLBACK
  · rw [SrcIndexApi.src_nifty_warning remote backend hc]
    exact results_all_isSome _ _
  · rw [SrcIndexApi.src_nifty_success remote backend hc]
    exact results_all_isSome _ _
  · rw [SrcIndexApi.src_nifty_warning remote backend hc]
    exact List.filter_sublist _
  · rw [SrcIndexApi.src_nifty_success remote backend hc]
    exact List.filter_sublist _
  · rw [SrcIndexApi.src_nifty_warning remote backend hc]
    intro n hn
    exact absurd hn (by simp)
  · rw [SrcIndexApi.src_nifty_success remote backend hc]
    intro n hn
    injection hn with hn
    exact hn.symm
  · rw [SrcIndexApi.src_nifty_warning remote backend hc]
    intro m n hm hn
    exact absurd hm (by simp)
  · rw [SrcIndexApi.src_nifty_success remote backend hc]
    intro m n hm hn
    injection hm with hm
    injection hn with hn
    subst hm
    subst hn
    exact results_length_le _ _

/-- Claim C4, witness: with a parsed remote table of two symbols and a
failing quote backend, the older endpoint reports two constituents and
zero fetched snapshots. -/
theorem aggregate_report_invariants_witness :
    (2 = (get_nifty_50_symbols
        (FetchOutcome.parsed [("Symbol", ["TCS", "SBIN"])])).length) ∧ (0 ≤ 2) := by
  have h := aggregate_report_invariants
    (FetchOutcome.parsed [("Symbol", ["TCS", "SBIN"])])
    (fun _ => Backend.exn Fault.infoLookup)
  refine ⟨h.2.2.2.2.2.2.2.2.2.2.2.1 2 ?_, h.2.2.2.2.2.2.2.2.2.2.2.2 0 2 ?_ ?_⟩
  · rw [SrcIndexApi.src_nifty_success _ _ (by decide)]
    decide
  · rw [SrcIndexApi.src_nifty_success _ _ (by decide)]
    decide
  · rw [SrcIndexApi.src_nifty_success _ _ (by decide)]
    decide

end IndianStockApi

namespace IndianStockApi

/-- Claim C7, counterexample: on a connection error the resolver falls
back, yet the app/api endpoint still reports status success, and the
report carries no field naming the source that was used. -/
theorem status_success_on_fallback_counterexample :
    get_nifty_50_symbols FetchOutcome.connectionError = NIFTY_FALLBACK ∧
    (get_nifty50_data FetchOutcome.connectionError
        (fun _ => Backend.exn Fault.infoLookup)).status = "success" ∧
    "success" ≠ "warning" :=
  ⟨rfl, rfl, by decide⟩

/-- Claim C7 (amended): the app/api NIFTY 50 and SENSEX endpoints
always report status success and never report the source used; only
the older api/index_api.py NIFTY 50 endpoint reports status warning,
doing so exactly when the resolved list is empty or equals the seven
symbol fallback list, hence in particular on every resolver failure. -/
theorem status_policy :
    (∀ (remote : FetchOutcome) (backend : String → Backend),
        (get_nifty50_data remote backend).status = "success") ∧
    (∀ backend : String → Backend, (get_sensex_data backend).status = "success") ∧
    (∀ (remote : FetchOutcome) (backend : String → Backend),
        (SrcIndexApi.get_nifty50_data remote backend).status =
          if get_nifty_50_symbols remote = [] ∨ get_nifty_50_symbols remote = NIFTY_FALLBACK
          then "warning" else "success") ∧
    (∀ (o : FetchOutcome) (backend : String → Backend), isFailure o = true →
        (SrcIndexApi.get_nifty50_data o backend).status = "warning") := by
  refine ⟨fun _ _ => rfl, fun _ => rfl, ?_, ?_⟩
  · intro remote backend
    by_cases hc : get_nifty_50_symbols remote = [] ∨
        get_nifty_50_symbols remote = NIFTY_FALLBACK
    · rw [SrcIndexApi.src_nifty_warning remote backend hc, if_pos hc]
    · rw [SrcIndexApi.src_nifty_success remote backend hc, if_neg hc]
  · intro o backend h
    rw [SrcIndexApi.src_nifty_warning o backend
      (Or.inr (get_nifty_50_symbols_of_failure o h))]

/-- Claim C7 (amended), witness: a malformed CSV failure concretely
makes the older endpoint report status warning. -/
theorem status_policy_witness :
    (SrcIndexApi.get_nifty50_data FetchOutcome.malformedCSV
        (fun _ => Backend.exn Fault.nearnessComputation)).status = "warning" :=
  status_policy.2.2.2 FetchOutcome.malformedCSV
    (fun _ => Backend.exn Fault.nearnessComputation) rfl

set_option maxHeartbeats 1600000 in
/-- Claim C8 (code bug in the source): the hardcoded SENSEX 30 list
contains TATASTEEL twice, at positions 18 and 24, so its entries are
not pairwise distinct; the seven symbol NIFTY fallback list is
duplicate free. -/
theorem sensex_list_duplicate :
    get_sensex_30_symbols.length = 30 ∧
    get_sensex_30_symbols[18]? = some "TATASTEEL" ∧
    get_sensex_30_symbols[24]? = some "TATASTEEL" ∧
    get_sensex_30_symbols.count "TATASTEEL" = 2 ∧
    ¬ get_sensex_30_symbols.Nodup ∧
    NIFTY_FALLBACK.Nodup := by
  refine ⟨rfl, rfl, rfl, by decide, by decide, by decide⟩

end IndianStockApi

namespace StockApi

set_option maxHeartbeats 1600000 in
/-- Claim C9: the live quote fetch returns the no data result (none)
on a network or HTTP error, on a body that does not parse as JSON, on
a falsy parsed document, on a document without an info section, and on
a document whose nested info symbol is absent; in every remaining case
in which the field mapping succeeds it returns exactly the mapped
quote record. -/
theorem fetch_live_quote_never_propagates :
    fetch_live_quote_data QuoteResponse.netError = none ∧
    fetch_live_quote_data QuoteResponse.nonJson = none ∧
    fetch_live_quote_data (QuoteResponse.json none) = none ∧
    (∀ d : QuoteDoc, d.info = none →
        fetch_live_quote_data (QuoteResponse.json (some d)) = none) ∧
    (∀ (d : QuoteDoc) (i : InfoSection), d.info = some i → i.symbol = none →
        fetch_live_quote_data (QuoteResponse.json (some d)) = none) ∧
    (∀ (d : QuoteDoc) (q : Quote), buildQuote d = some q →
        fetch_live_quote_data (QuoteResponse.json (some d)) = some q) := by
  refine ⟨rfl, rfl, rfl, ?_, ?_, ?_⟩
  · intro d h
    simp [fetch_live_quote_data, h]
  · intro d i h1 h2
    simp [fetch_live_quote_data, h1, h2]
  · intro d q h
    rcases hi : d.info with _ | i
    · rw [buildQuote, hi, Option.none_bind] at h
      exact absurd h (by simp)
    · rcases hs : i.symbol with _ | s
      · rw [buildQuote, hi, Option.some_bind, hs, Option.none_bind] at h
        exact absurd h (by simp)
      · simp only [fetch_live_quote_data, hi, hs]
        exact h

/-- Claim C9, witness: a document without an info section yields none,
and a fully populated document yields the mapped quote. -/
theorem fetch_live_quote_witness :
    fetch_live_quote_data (QuoteResponse.json (some emptyInfoDoc)) = none ∧
    fetch_live_quote_data (QuoteResponse.json (some fullQuoteDoc)) = some fullQuote :=
  ⟨fetch_live_quote_never_propagates.2.2.2.1 emptyInfoDoc rfl,
   fetch_live_quote_never_propagates.2.2.2.2.2 fullQuoteDoc fullQuote rfl⟩

end StockApi
